import Mathlib

/-!
Shallow embedding of `src/rngd.c` from android_external_rng_tools
(rng-tools 2.14, Android port).

The file models the daemon's lifecycle code as pure functions producing
event traces: `die`, `get_lock` (pidfile locking), `init_rng_stats` and
`dump_rng_stats` (the statistics registry), the startup sequence of
`main` (kernel check, initialization, daemonization, worker-thread
creation), and the main wait loop (hourly stats dump, signal flags).

Headers `exits.h`, `stats.h` and `fips.h` are not part of the sources;
where a definition depends on them it is modelled from the spec and
marked as such in its doc comment.
-/

namespace Rngd

/-- Modelled from the spec: `exits.h` is not under src.  The spec names
three process exit classes (success; usage/configuration error;
operating-system/resource error) whose exact numeric values are an
external contract; we model them as an abstract enumeration, which is
all the code under src distinguishes. -/
inductive ExitCode
| success
| usage
| oserr
deriving DecidableEq, Repr

/-- Identities of the three worker threads created in `main`
(`do_rng_data_source_loop`, `do_rng_fips_test_loop`,
`do_rng_data_sink_loop`). -/
inductive ThreadId
| source
| fips
| sink
deriving DecidableEq, Repr

/-- Observable events of the lifecycle code in `rngd.c`: log messages,
system calls on the pidfile, initialization steps, thread creation,
stats dumps and process exit. -/
inductive Event
| logUnsupportedKernel
| logCantOpenPidfile
| logLockConflict (otherpid : Int)
| logCantLock
| logCantDaemonize
| logDeviceFailure
| logSinkFailure
| logThreadFailure
| logStarting
| logExiting (code : ExitCode)
| dumpStats
| openLockfile
| flockCall
| writePid (pid : Int)
| truncatePidfile
| closeFds
| initStats
| initSighandlers
| initEntropySource
| initKernelRng
| initBuffers
| createThread (id : ThreadId)
| exitWith (c : ExitCode)
deriving DecidableEq, Repr

/-- Trace of events emitted by a run of a piece of the daemon. -/
abbrev Trace := List Event

/-- Embedding of `die` (rngd.c:146-150): log the status if running as a
daemon, then `exit(status)`.  Returns the events it emits; the trailing
`exitWith` terminates the process, so nothing may be appended after it. -/
def die (am_daemon : Bool) (status : ExitCode) : Trace :=
  (if am_daemon then [Event.logExiting status] else []) ++ [Event.exitWith status]

/-- First exit code occurring in a trace (the process exits at the first
`exitWith`, so later events never happen in a real run). -/
def exitCodeOf : Trace → Option ExitCode
| [] => none
| Event.exitWith c :: _ => some c
| _ :: rest => exitCodeOf rest

/-- Whether a trace contains a process exit. -/
def hasExitB (t : Trace) : Bool := (exitCodeOf t).isSome

/-- Outcome of one `flock(LOCK_EX|LOCK_NB)` call in `get_lock`
(rngd.c:170-172): success, interrupted (`EINTR`, retried by the
do-while loop), already locked (`EWOULDBLOCK`), or another error. -/
inductive FlockOutcome
| ok
| eintr
| ewouldblock
| othererr
deriving DecidableEq, Repr

/-- Result of the `flock` retry loop: the first non-`EINTR` outcome. -/
inductive FlockRes
| ok
| ewouldblock
| othererr
deriving DecidableEq, Repr

/-- Embedding of the do-while loop in `get_lock` (rngd.c:170-172): retry
`flock` while it fails with `EINTR`; the result is the first outcome
that is not `EINTR` (`none` models the loop never returning because
every attempt is interrupted). -/
def flockLoop : List FlockOutcome → Option FlockRes
| [] => none
| FlockOutcome.eintr :: rest => flockLoop rest
| FlockOutcome.ok :: _ => some FlockRes.ok
| FlockOutcome.ewouldblock :: _ => some FlockRes.ewouldblock
| FlockOutcome.othererr :: _ => some FlockRes.othererr

/-- Environment of one `get_lock` call: whether `open`+`fdopen` succeed,
the successive outcomes of `flock` attempts, the PID parseable from the
existing pidfile by `fscanf` (`none` when nothing parses, leaving
`otherpid` at its initial 0), and the current process's PID. -/
structure LockEnv where
  openSucceeds : Bool
  flockAttempts : List FlockOutcome
  pidfileContent : Option Int
  pid : Int
deriving DecidableEq, Repr

/-- Embedding of `get_lock` (rngd.c:155-191).  `fpOpen` is the state of
the static `daemon_lockfp`: when it is already non-NULL the open/flock
block is skipped entirely and only the pidfile rewrite at the end runs.
Returns the emitted trace paired with the new `daemon_lockfp` state, or
`none` when the `flock` retry loop never terminates. -/
def get_lock (env : LockEnv) (am_daemon : Bool) (fpOpen : Bool) :
    Option (Trace × Bool) :=
  if fpOpen then
    some ([Event.writePid env.pid, Event.truncatePidfile], true)
  else if env.openSucceeds = false then
    some (Event.logCantOpenPidfile :: die am_daemon ExitCode.usage, false)
  else
    match flockLoop env.flockAttempts with
    | none => none
    | some FlockRes.ok =>
        some ([Event.openLockfile, Event.flockCall,
               Event.writePid env.pid, Event.truncatePidfile], true)
    | some FlockRes.ewouldblock =>
        some (Event.openLockfile :: Event.flockCall ::
              Event.logLockConflict (env.pidfileContent.getD 0) ::
              die am_daemon ExitCode.usage, true)
    | some FlockRes.othererr =>
        some (Event.openLockfile :: Event.flockCall ::
              Event.logCantLock :: die am_daemon ExitCode.usage, true)

/-- Sleep interval of the main wait loop (rngd.c:68). -/
def RNGD_STAT_SLEEP_TIME : Nat := 3600

/-- Modelled from the spec: `fips.h` is not under src; §4.3 lists five
statistical tests (monobit, poker, runs, long-run, continuous-run). -/
def N_FIPS_TESTS : Nat := 5

/-- Embedding of `struct rng_stats`.  Modelled from the spec where the
header is missing: §3 StatsGroup lists the counters (bytes received,
bytes sent, entropy sent, good/bad FIPS blocks, per-test failure
counters, buffer low-water mark, sink starvations, cumulative waits);
the mutexes and the bandwidth sub-structures carry no counter value
relevant to the claims, the latter modelled as single accumulators. -/
structure RngStats where
  bytes_received : Int
  source_blockfill : Int
  bytes_sent : Int
  entropy_sent : Int
  good_fips_blocks : Int
  bad_fips_blocks : Int
  fips_failures : List Int
  buffer_lowmark : Int
  sink_starved : Int
  sink_wait : Int
  fips_blockfill : Int
deriving DecidableEq, Repr

/-- Embedding of `init_rng_stats` (rngd.c:197-207): `memset` zeroes the
whole structure, then `buffer_lowmark` is set to `n - 1` ("one is
always in use"), where `n` is the configured buffer count. -/
def init_rng_stats (n : Int) : RngStats :=
  { bytes_received := 0
    source_blockfill := 0
    bytes_sent := 0
    entropy_sent := 0
    good_fips_blocks := 0
    bad_fips_blocks := 0
    fips_failures := List.replicate N_FIPS_TESTS 0
    buffer_lowmark := n - 1
    sink_starved := 0
    sink_wait := 0
    fips_blockfill := 0 }

/-- Modelled from the spec: the buffer pool "tracks `buffer_lowmark` =
minimum observed count of ready (tested-good) buffers"; the updating
code lives outside src (rngd_linux.c / pool code).  Recording an
observed ready count keeps the running minimum. -/
def recordBufferLowmark (s : RngStats) (c : Int) : RngStats :=
  if c < s.buffer_lowmark then { s with buffer_lowmark := c } else s

/-- Signed 32-bit wrap-around: the value an `int` conversion of `n`
yields on the target machine, as printed by the `%d` conversions in
`dump_rng_stats`. -/
def wrap32 (n : Int) : Int :=
  if n % 2 ^ 32 < 2 ^ 31 then n % 2 ^ 32 else n % 2 ^ 32 - 2 ^ 32

/-- Log lines emitted by `dump_rng_stats` (rngd.c:216-228); each value
is what the `%d` conversion prints, i.e. a signed 32-bit quantity. -/
inductive LogMsg
| bitsReceived (v : Int)
| bitsSent (v : Int)
| entropyAdded (v : Int)
| fipsSuccesses (v : Int)
| fipsFailures (v : Int)
deriving DecidableEq, Repr

/-- Embedding of `dump_rng_stats` (rngd.c:209-257): under the group
mutexes it logs bits received (`bytes_received * 8`), bits sent
(`bytes_sent * 8`), entropy added, and FIPS success/failure counts,
each through `%d`; every state-modifying line (per-test counters,
bandwidth, low-water mark, starvation dump) is commented out, so the
statistics structure is returned unchanged. -/
def dump_rng_stats (s : RngStats) : RngStats × List LogMsg :=
  (s,
   [LogMsg.bitsReceived (wrap32 (s.bytes_received * 8)),
    LogMsg.bitsSent (wrap32 (s.bytes_sent * 8)),
    LogMsg.entropyAdded (wrap32 s.entropy_sent),
    LogMsg.fipsSuccesses (wrap32 s.good_fips_blocks),
    LogMsg.fipsFailures (wrap32 s.bad_fips_blocks)])

/-- One wake-up of the main thread from `sleep(sleeptime)`
(rngd.c:325): the remaining time `sleep` returned (0 when the timer
expired), and whether signal handlers set `gotsigusr1` / `gotsigterm`
during the sleep. -/
structure WakeEvent where
  remaining : Nat
  sigusr1 : Bool
  sigterm : Bool
deriving DecidableEq, Repr

/-- State of the main wait loop: `sleeptime` and the two signal flags
maintained by the external signal handlers. -/
structure LoopState where
  sleeptime : Nat
  gotsigusr1 : Bool
  gotsigterm : Bool
deriving DecidableEq, Repr

/-- Embedding of one iteration of the main loop body (rngd.c:325-330):
sleep returns `w.remaining`, the handlers may have set the flags; if
the timer expired or either flag is set, dump the stats, re-arm the
full timer and clear `gotsigusr1`; otherwise keep sleeping the
remaining time. -/
def loopIter (s : LoopState) (w : WakeEvent) : LoopState × Trace :=
  if w.remaining == 0 || (s.gotsigusr1 || w.sigusr1) ||
     (s.gotsigterm || w.sigterm) then
    ({ sleeptime := RNGD_STAT_SLEEP_TIME, gotsigusr1 := false,
       gotsigterm := s.gotsigterm || w.sigterm }, [Event.dumpStats])
  else
    ({ sleeptime := w.remaining, gotsigusr1 := s.gotsigusr1 || w.sigusr1,
       gotsigterm := s.gotsigterm || w.sigterm }, [])

/-- Embedding of the main wait loop (rngd.c:324-331): while
`gotsigterm` is unset, process the next wake-up.  An exhausted wake
list models a still-sleeping daemon. -/
def mainLoop : LoopState → List WakeEvent → LoopState × Trace
| s, [] => (s, [])
| s, w :: ws =>
  if s.gotsigterm then (s, [])
  else
    ((mainLoop (loopIter s w).1 ws).1,
     (loopIter s w).2 ++ (mainLoop (loopIter s w).1 ws).2)

/-- Embedding of the code after the main loop (rngd.c:333-338): log and
`exit(exitstatus)`. -/
def mainShutdown (exitstatus : ExitCode) : Trace :=
  [Event.logExiting exitstatus, Event.exitWith exitstatus]

/-- Main loop followed by the shutdown path when the loop ended because
`gotsigterm` was set. -/
def mainWait (s : LoopState) (ws : List WakeEvent) (exitstatus : ExitCode) :
    LoopState × Trace :=
  ((mainLoop s ws).1,
   (mainLoop s ws).2 ++
     if (mainLoop s ws).1.gotsigterm then mainShutdown exitstatus else [])

/-- Environment of `main`'s startup sequence (rngd.c:259-317):
kernel-mode support, success of the entropy-source and kernel-sink
initializers (their bodies live outside src and are modelled from the
spec, which makes their failures fatal operating-system errors),
daemon-mode flag, the two `get_lock` call environments (before and
after `daemon()`, which forks and changes the PID), success of
`daemon()`, and the three `pthread_create` return values. -/
structure MainEnv where
  kernelSupported : Bool
  entropySourceOk : Bool
  kernelSinkOk : Bool
  daemonMode : Bool
  lockEnv : LockEnv
  daemonizeOk : Bool
  lockEnv2 : LockEnv
  t1err : Nat
  t2err : Nat
  t3err : Nat
deriving Repr

/-- Initialization steps of `main` before daemonization
(rngd.c:274-286): close stray fds, `init_rng_stats`,
`init_sighandlers`, `init_entropy_source`, `init_kernel_rng`. -/
def initTrace : Trace :=
  [Event.closeFds, Event.initStats, Event.initSighandlers,
   Event.initEntropySource, Event.initKernelRng]

/-- Post-fork steps of `main` (rngd.c:305-317): startup log,
`init_rng_buffers`, `init_sighandlers`, then the three
`pthread_create` calls whose return codes are combined with bitwise
or; any nonzero code leads to `die(EXIT_OSERR)`. -/
def postForkTrace (am_daemon : Bool) (t1 t2 t3 : Nat) : Trace :=
  [Event.logStarting, Event.initBuffers, Event.initSighandlers,
   Event.createThread ThreadId.source, Event.createThread ThreadId.fips,
   Event.createThread ThreadId.sink] ++
  (if t1 ||| t2 ||| t3 ≠ 0 then
     Event.logThreadFailure :: die am_daemon ExitCode.oserr
   else [])

/-- Embedding of `main`'s startup sequence up to entering the wait loop
(rngd.c:259-317): kernel-support check (fatal `EXIT_OSERR`), the
initializers (entropy source and kernel sink modelled from the spec:
their failure is a fatal operating-system error), then in daemon mode
`get_lock`, `daemon()` (failure returns `EXIT_OSERR`), a second
`get_lock` with the lockfile already open, and finally the post-fork
steps.  A `die` inside `get_lock` terminates the process, so nothing
follows it in the trace.  `none` models a `get_lock` that never
returns. -/
def mainStartup (env : MainEnv) : Option Trace :=
  if env.kernelSupported = false then
    some (Event.logUnsupportedKernel :: die false ExitCode.oserr)
  else if env.entropySourceOk = false then
    some ([Event.closeFds, Event.initStats, Event.initSighandlers,
           Event.logDeviceFailure] ++ die false ExitCode.oserr)
  else if env.kernelSinkOk = false then
    some ([Event.closeFds, Event.initStats, Event.initSighandlers,
           Event.initEntropySource, Event.logSinkFailure] ++
          die false ExitCode.oserr)
  else if env.daemonMode then
    (get_lock env.lockEnv false false).bind fun lr =>
      if hasExitB lr.1 then some (initTrace ++ lr.1)
      else if env.daemonizeOk = false then
        some (initTrace ++ lr.1 ++
              [Event.logCantDaemonize, Event.exitWith ExitCode.oserr])
      else
        (get_lock env.lockEnv2 true lr.2).bind fun lr2 =>
          if hasExitB lr2.1 then some (initTrace ++ lr.1 ++ lr2.1)
          else some (initTrace ++ lr.1 ++ lr2.1 ++
                     postForkTrace true env.t1err env.t2err env.t3err)
  else
    some (initTrace ++ postForkTrace false env.t1err env.t2err env.t3err)

/-- Markers of pipeline startup inside a trace: buffer-pool
initialization and worker-thread creation, in order. -/
def startupMarkers (t : Trace) : Trace :=
  t.filter fun e =>
    match e with
    | Event.initBuffers => true
    | Event.createThread _ => true
    | _ => false

/-! Helper lemmas shared by the claim theorems. -/

theorem foldl_recordBufferLowmark_le (cs : List Int) :
    ∀ s : RngStats,
      (cs.foldl recordBufferLowmark s).buffer_lowmark ≤ s.buffer_lowmark := by
  induction cs with
  | nil => intro s; simp
  | cons c cs ih =>
    intro s
    refine le_trans (ih (recordBufferLowmark s c)) ?_
    unfold recordBufferLowmark
    split
    · next h => simpa using h.le
    · exact le_refl _

theorem wrap32_bounds (x : Int) :
    -(2 ^ 31) ≤ wrap32 x ∧ wrap32 x < 2 ^ 31 := by
  have h0 : (0 : Int) ≤ x % 2 ^ 32 := Int.emod_nonneg x (by norm_num)
  have h1 : x % 2 ^ 32 < 2 ^ 32 := Int.emod_lt_of_pos x (by norm_num)
  unfold wrap32
  split <;> omega

theorem wrap32_emod (x : Int) : wrap32 x % 2 ^ 32 = x % 2 ^ 32 := by
  unfold wrap32
  split <;> omega

theorem lor_zero_iff (a b : Nat) : a ||| b = 0 ↔ a = 0 ∧ b = 0 := by
  constructor
  · intro h
    have hbit : ∀ k, a.testBit k = false ∧ b.testBit k = false := by
      intro k
      have hk := congrArg (fun x => Nat.testBit x k) h
      simpa [Nat.testBit_lor] using hk
    exact ⟨Nat.eq_of_testBit_eq fun k => by simp [(hbit k).1],
           Nat.eq_of_testBit_eq fun k => by simp [(hbit k).2]⟩
  · rintro ⟨rfl, rfl⟩
    rfl

theorem exitCodeOf_append_of_none (a b : Trace) (h : exitCodeOf a = none) :
    exitCodeOf (a ++ b) = exitCodeOf b := by
  induction a with
  | nil => simp
  | cons e rest ih =>
    cases e <;> simp [exitCodeOf] at h ⊢ <;> exact ih h

theorem exitCodeOf_none_of_hasExitB (t : Trace) (h : hasExitB t = false) :
    exitCodeOf t = none := by
  unfold hasExitB at h
  cases he : exitCodeOf t
  · rfl
  · rw [he] at h
    simp at h

theorem mem_startupMarkers_of_create (t : Trace) (id : ThreadId)
    (h : Event.createThread id ∈ t) :
    Event.createThread id ∈ startupMarkers t :=
  List.mem_filter.2 ⟨h, rfl⟩

theorem startupMarkers_append (a b : Trace) :
    startupMarkers (a ++ b) = startupMarkers a ++ startupMarkers b :=
  List.filter_append a b

theorem get_lock_markers (e : LockEnv) (am fp : Bool) (t : Trace) (f : Bool)
    (h : get_lock e am fp = some (t, f)) : startupMarkers t = [] := by
  unfold get_lock at h
  cases fp with
  | true =>
    simp at h
    rw [← h.1]
    rfl
  | false =>
    by_cases ho : e.openSucceeds = false
    · simp [ho] at h
      rw [← h.1]
      cases am <;> rfl
    · simp [ho] at h
      cases hf : flockLoop e.flockAttempts with
      | none => rw [hf] at h; simp at h
      | some r =>
        rw [hf] at h
        cases r <;> simp at h <;> rw [← h.1] <;> cases am <;> rfl

theorem get_lock_cases (e : LockEnv) (am : Bool) (t : Trace) (f : Bool)
    (h : get_lock e am false = some (t, f)) :
    (t = [Event.openLockfile, Event.flockCall, Event.writePid e.pid,
          Event.truncatePidfile] ∧ f = true ∧ exitCodeOf t = none) ∨
    exitCodeOf t = some ExitCode.usage := by
  unfold get_lock at h
  by_cases ho : e.openSucceeds = false
  · simp [ho] at h
    right
    rw [← h.1]
    cases am <;> rfl
  · simp [ho] at h
    cases hf : flockLoop e.flockAttempts with
    | none => rw [hf] at h; simp at h
    | some r =>
      rw [hf] at h
      cases r <;> simp at h
      · exact Or.inl ⟨h.1.symm, h.2, by rw [← h.1]; rfl⟩
      · right
        rw [← h.1]
        cases am <;> rfl
      · right
        rw [← h.1]
        cases am <;> rfl

theorem startupMarkers_postFork (am : Bool) (a b c : Nat) :
    startupMarkers (postForkTrace am a b c) =
      [Event.initBuffers, Event.createThread ThreadId.source,
       Event.createThread ThreadId.fips, Event.createThread ThreadId.sink] := by
  unfold postForkTrace
  split <;> cases am <;> rfl

theorem exitCodeOf_postFork_fail (am : Bool) (a b c : Nat)
    (h : a ||| b ||| c ≠ 0) :
    exitCodeOf (postForkTrace am a b c) = some ExitCode.oserr := by
  unfold postForkTrace
  rw [if_pos h]
  cases am <;> rfl

theorem exitCodeOf_postFork_ok (am : Bool) (a b c : Nat)
    (h : a ||| b ||| c = 0) :
    exitCodeOf (postForkTrace am a b c) = none := by
  unfold postForkTrace
  rw [if_neg (by simp [h])]
  rfl

theorem mainLoop_of_term (s : LoopState) (ws : List WakeEvent)
    (h : s.gotsigterm = true) : mainLoop s ws = (s, []) := by
  cases ws <;> simp [mainLoop, h]

theorem loopIter_dump_of_term (s : LoopState) (w : WakeEvent)
    (h : (loopIter s w).1.gotsigterm = true) :
    (loopIter s w).2 = [Event.dumpStats] := by
  unfold loopIter at h ⊢
  by_cases hc : (w.remaining == 0 || (s.gotsigusr1 || w.sigusr1) ||
      (s.gotsigterm || w.sigterm)) = true
  · rw [if_pos hc]
  · rw [if_neg hc] at h ⊢
    exfalso
    simp at h hc
    rcases h with h | h <;> simp [h] at hc

theorem mainLoop_dump_of_term (ws : List WakeEvent) :
    ∀ s : LoopState, s.gotsigterm = false →
      (mainLoop s ws).1.gotsigterm = true →
      Event.dumpStats ∈ (mainLoop s ws).2 := by
  induction ws with
  | nil =>
    intro s hs h
    simp [mainLoop, hs] at h
  | cons w ws ih =>
    intro s hs h
    rw [mainLoop, if_neg (by simp [hs])] at h ⊢
    by_cases hp : (loopIter s w).1.gotsigterm = true
    · rw [loopIter_dump_of_term s w hp]
      simp
    · have hp' : (loopIter s w).1.gotsigterm = false := by
        simpa using hp
      simp only [List.mem_append]
      exact Or.inr (ih _ hp' h)

/-! Claim theorems. -/

/-- C6: `dump_rng_stats` only reads the counters — for every statistics
field, its value after the dump equals its value before the call; the
statistics are never reset after initialization. -/
theorem c6_dump_preserves_stats (s : RngStats) : (dump_rng_stats s).1 = s := rfl

/-- C8: `init_rng_stats n` zeroes every statistics counter except
`buffer_lowmark`, which it initializes to `n - 1` on the assumption
that one buffer is always in use; since the low-water mark only ever
records minima from there on, the reported value can never exceed
`n - 1`. -/
theorem c8_init_stats_lowmark (n : Int) (cs : List Int) :
    (init_rng_stats n).bytes_received = 0 ∧
    (init_rng_stats n).source_blockfill = 0 ∧
    (init_rng_stats n).bytes_sent = 0 ∧
    (init_rng_stats n).entropy_sent = 0 ∧
    (init_rng_stats n).good_fips_blocks = 0 ∧
    (init_rng_stats n).bad_fips_blocks = 0 ∧
    (init_rng_stats n).fips_failures = List.replicate N_FIPS_TESTS 0 ∧
    (init_rng_stats n).sink_starved = 0 ∧
    (init_rng_stats n).sink_wait = 0 ∧
    (init_rng_stats n).fips_blockfill = 0 ∧
    (init_rng_stats n).buffer_lowmark = n - 1 ∧
    (cs.foldl recordBufferLowmark (init_rng_stats n)).buffer_lowmark ≤ n - 1 := by
  refine ⟨rfl, rfl, rfl, rfl, rfl, rfl, rfl, rfl, rfl, rfl, rfl, ?_⟩
  exact foldl_recordBufferLowmark_le cs (init_rng_stats n)

/-- C9: when `get_lock` is called while the lockfile is already open and
locked by this process (`daemon_lockfp` non-NULL), it performs no open
and no flock; it only rewrites the pidfile content to the current
process's PID and truncates it, and it cannot exit. -/
theorem c9_relock_updates_pid (e : LockEnv) (am : Bool) :
    get_lock e am true =
      some ([Event.writePid e.pid, Event.truncatePidfile], true) ∧
    Event.openLockfile ∉ [Event.writePid e.pid, Event.truncatePidfile] ∧
    Event.flockCall ∉ [Event.writePid e.pid, Event.truncatePidfile] ∧
    exitCodeOf [Event.writePid e.pid, Event.truncatePidfile] = none := by
  refine ⟨rfl, ?_, ?_, rfl⟩ <;> simp

/-- C4 (counterexample): a stats dump does not reset `buffer_lowmark`.
With 3 buffers the low-water mark is initialized to 2; after observing
a ready count of 0 and then dumping, the mark still holds the old
minimum 0 — the dump leaves the whole statistics record unchanged, so
the next reported value does not cover only the interval since the
dump. -/
theorem c4_dump_no_reset_cex :
    (dump_rng_stats (recordBufferLowmark (init_rng_stats 3) 0)).1.buffer_lowmark
      = 0 ∧
    (dump_rng_stats (recordBufferLowmark (init_rng_stats 3) 0)).1
      = recordBufferLowmark (init_rng_stats 3) 0 ∧
    (0 : Int) ≠ 3 - 1 := by
  refine ⟨by decide, rfl, by decide⟩

/-- C4 (amended): `buffer_lowmark` records the minimum observed count of
ready buffers since initialization — a process-lifetime low-water mark:
`dump_rng_stats` neither resets nor modifies it (its reporting is
commented out in the source), and each observation keeps the running
minimum. -/
theorem c4_lowmark_lifetime (s : RngStats) (c : Int) :
    (dump_rng_stats s).1.buffer_lowmark = s.buffer_lowmark ∧
    (recordBufferLowmark s c).buffer_lowmark = min s.buffer_lowmark c := by
  refine ⟨rfl, ?_⟩
  unfold recordBufferLowmark
  rcases lt_or_ge c s.buffer_lowmark with h | h
  · simp [h, min_eq_right h.le]
  · simp [not_lt.2 h, min_eq_left h]

/-- C2 (counterexample): `die` performs no stats dump before exiting —
its trace at a concrete call (`die(EXIT_USAGE)` as a daemon) reaches
the process exit with no `dumpStats` event. -/
theorem c2_die_no_dump_cex :
    Event.dumpStats ∉ die true ExitCode.usage ∧
    Event.exitWith ExitCode.usage ∈ die true ExitCode.usage := by
  decide

/-- C10: the stats dump logs bit counts computed from byte counters as
bytes times 8 in machine signed-int arithmetic: the logged values for
bits received and bits sent are congruent to `bytes_received * 8` and
`bytes_sent * 8` modulo `2 ^ 32`, lie in the signed 32-bit range, and
genuinely wrap (differ from the mathematical product) once the byte
counter reaches `2 ^ 28`. -/
theorem c10_logged_bits_wrap (s : RngStats) :
    LogMsg.bitsReceived (wrap32 (s.bytes_received * 8)) ∈ (dump_rng_stats s).2 ∧
    LogMsg.bitsSent (wrap32 (s.bytes_sent * 8)) ∈ (dump_rng_stats s).2 ∧
    wrap32 (s.bytes_received * 8) % 2 ^ 32 = s.bytes_received * 8 % 2 ^ 32 ∧
    wrap32 (s.bytes_sent * 8) % 2 ^ 32 = s.bytes_sent * 8 % 2 ^ 32 ∧
    (2 ^ 28 ≤ s.bytes_received →
      wrap32 (s.bytes_received * 8) ≠ s.bytes_received * 8) ∧
    (2 ^ 28 ≤ s.bytes_sent →
      wrap32 (s.bytes_sent * 8) ≠ s.bytes_sent * 8) := by
  refine ⟨by simp [dump_rng_stats], by simp [dump_rng_stats],
          wrap32_emod _, wrap32_emod _, ?_, ?_⟩
  · intro h
    have hb := (wrap32_bounds (s.bytes_received * 8)).2
    omega
  · intro h
    have hb := (wrap32_bounds (s.bytes_sent * 8)).2
    omega

/-- C5: the main thread sleeps on an hourly (3600-second) timer and, on
every wake caused by timer expiry, a stats-dump signal or a termination
signal, it dumps statistics, re-arms the full hourly timer and clears
the stats-dump flag; the loop stops iterating exactly when the
termination flag is set. -/
theorem c5_main_loop_behavior :
    RNGD_STAT_SLEEP_TIME = 3600 ∧
    (∀ (s : LoopState) (w : WakeEvent),
      (w.remaining = 0 ∨ s.gotsigusr1 = true ∨ w.sigusr1 = true ∨
       s.gotsigterm = true ∨ w.sigterm = true) →
      (loopIter s w).2 = [Event.dumpStats] ∧
      (loopIter s w).1.sleeptime = RNGD_STAT_SLEEP_TIME ∧
      (loopIter s w).1.gotsigusr1 = false) ∧
    (∀ (s : LoopState) (ws : List WakeEvent), s.gotsigterm = true →
      mainLoop s ws = (s, [])) ∧
    (∀ (s : LoopState) (w : WakeEvent) (ws : List WakeEvent),
      s.gotsigterm = false →
      mainLoop s (w :: ws) =
        ((mainLoop (loopIter s w).1 ws).1,
         (loopIter s w).2 ++ (mainLoop (loopIter s w).1 ws).2)) := by
  refine ⟨rfl, ?_, mainLoop_of_term, ?_⟩
  · intro s w h
    have hc : (w.remaining == 0 || (s.gotsigusr1 || w.sigusr1) ||
        (s.gotsigterm || w.sigterm)) = true := by
      rcases h with h | h | h | h | h <;> simp [h]
    unfold loopIter
    rw [if_pos hc]
    exact ⟨rfl, rfl, rfl⟩
  · intro s w ws h
    simp [mainLoop, h]

/-- Witness for C5 at a concrete state and a timer-expiry wake. -/
theorem c5_main_loop_behavior_witness :
    (loopIter ⟨3600, false, false⟩ ⟨0, false, false⟩).2 = [Event.dumpStats] ∧
    (loopIter ⟨3600, false, false⟩ ⟨0, false, false⟩).1.sleeptime =
      RNGD_STAT_SLEEP_TIME ∧
    (loopIter ⟨3600, false, false⟩ ⟨0, false, false⟩).1.gotsigusr1 = false :=
  c5_main_loop_behavior.2.1 ⟨3600, false, false⟩ ⟨0, false, false⟩ (Or.inl rfl)

/-- C2 (amended): `die` exits without flushing statistics; only the
main loop's termination-signal exit is preceded by a stats dump — when
a termination signal is observed while the loop is running, a dump
event precedes the shutdown log-and-exit. -/
theorem c2_dump_before_termination_exit :
    (∀ (am : Bool) (c : ExitCode), Event.dumpStats ∉ die am c) ∧
    (∀ (s : LoopState) (ws : List WakeEvent) (c : ExitCode),
      s.gotsigterm = false →
      (mainWait s ws c).1.gotsigterm = true →
      ∃ pre, (mainWait s ws c).2 = pre ++ mainShutdown c ∧
        Event.dumpStats ∈ pre) := by
  constructor
  · intro am c
    cases am <;> cases c <;> decide
  · intro s ws c hs h
    have h' : (mainLoop s ws).1.gotsigterm = true := h
    refine ⟨(mainLoop s ws).2, ?_, mainLoop_dump_of_term ws s hs h'⟩
    show (mainLoop s ws).2 ++
        (if (mainLoop s ws).1.gotsigterm then mainShutdown c else []) = _
    rw [h']
    simp

/-- Witness for C2 (amended): a termination signal during the first
sleep leads to a dump followed by the shutdown exit. -/
theorem c2_dump_before_termination_exit_witness :
    ∃ pre,
      (mainWait ⟨3600, false, false⟩ [⟨100, false, true⟩]
        ExitCode.success).2 = pre ++ mainShutdown ExitCode.success ∧
      Event.dumpStats ∈ pre :=
  c2_dump_before_termination_exit.2 ⟨3600, false, false⟩
    [⟨100, false, true⟩] ExitCode.success rfl (by decide)

/-- C1: if the daemon lock cannot be acquired because another instance
holds it (`flock` fails with `EWOULDBLOCK`), `get_lock` logs the PID
read from the existing pidfile as the conflicting PID, and every
lock-acquisition failure — open/create failure or any `flock` failure —
makes the process exit with the usage-error status immediately (the
trace ends at the exit; nothing is retried). -/
theorem c1_lock_failure_exits_usage (e : LockEnv) (am : Bool) :
    (e.openSucceeds = false →
      get_lock e am false =
        some (Event.logCantOpenPidfile :: die am ExitCode.usage, false) ∧
      exitCodeOf (Event.logCantOpenPidfile :: die am ExitCode.usage) =
        some ExitCode.usage ∧
      (Event.logCantOpenPidfile :: die am ExitCode.usage).getLast? =
        some (Event.exitWith ExitCode.usage)) ∧
    (flockLoop e.flockAttempts = some FlockRes.ewouldblock →
      e.openSucceeds = true →
      ∃ t f, get_lock e am false = some (t, f) ∧
        Event.logLockConflict (e.pidfileContent.getD 0) ∈ t ∧
        exitCodeOf t = some ExitCode.usage ∧
        t.getLast? = some (Event.exitWith ExitCode.usage)) ∧
    (flockLoop e.flockAttempts = some FlockRes.othererr →
      e.openSucceeds = true →
      ∃ t f, get_lock e am false = some (t, f) ∧
        exitCodeOf t = some ExitCode.usage ∧
        t.getLast? = some (Event.exitWith ExitCode.usage)) := by
  refine ⟨?_, ?_, ?_⟩
  · intro ho
    refine ⟨?_, ?_, ?_⟩
    · unfold get_lock
      rw [if_neg (by simp), if_pos ho]
    · cases am <;> rfl
    · cases am <;> rfl
  · intro hf ho
    have hg : get_lock e am false =
        some (Event.openLockfile :: Event.flockCall ::
              Event.logLockConflict (e.pidfileContent.getD 0) ::
              die am ExitCode.usage, true) := by
      unfold get_lock
      rw [if_neg (by simp), if_neg (by simp [ho]), hf]
    refine ⟨_, _, hg, by simp, ?_, ?_⟩ <;> cases am <;> rfl
  · intro hf ho
    have hg : get_lock e am false =
        some (Event.openLockfile :: Event.flockCall ::
              Event.logCantLock :: die am ExitCode.usage, true) := by
      unfold get_lock
      rw [if_neg (by simp), if_neg (by simp [ho]), hf]
    refine ⟨_, _, hg, ?_, ?_⟩ <;> cases am <;> rfl

/-- Lock environment in which another process holds the lock: the
`flock` call is interrupted once, then fails with `EWOULDBLOCK`, and
the existing pidfile holds PID 1234. -/
def lockEnvBlocked : LockEnv :=
  ⟨true, [FlockOutcome.eintr, FlockOutcome.ewouldblock], some 1234, 42⟩

/-- Witness for C1: with another daemon holding the lock, `get_lock`
logs the conflicting PID from the pidfile and exits with the
usage-error status. -/
theorem c1_lock_failure_exits_usage_witness :
    ∃ t f, get_lock lockEnvBlocked false false = some (t, f) ∧
      Event.logLockConflict (lockEnvBlocked.pidfileContent.getD 0) ∈ t ∧
      exitCodeOf t = some ExitCode.usage ∧
      t.getLast? = some (Event.exitWith ExitCode.usage) :=
  (c1_lock_failure_exits_usage lockEnvBlocked false).2.1 rfl rfl

/-- Startup environment in which another rngd instance already holds
the daemon lock (`flock` reports `EWOULDBLOCK`); everything else is
healthy. -/
def envLockBlocked : MainEnv :=
  { kernelSupported := true
    entropySourceOk := true
    kernelSinkOk := true
    daemonMode := true
    lockEnv := lockEnvBlocked
    daemonizeOk := true
    lockEnv2 := ⟨true, [FlockOutcome.ok], none, 43⟩
    t1err := 0
    t2err := 0
    t3err := 0 }

/-- C3 (counterexample): lock failure does not exit with `EXIT_OSERR` —
when another instance holds the lock, the startup of `main` exits with
the usage-error status, which differs from the operating-system-error
status. -/
theorem c3_lock_failure_usage_cex :
    (mainStartup envLockBlocked).map exitCodeOf =
      some (some ExitCode.usage) ∧
    ExitCode.usage ≠ ExitCode.oserr := by
  decide

/-- C3 (amended): device failure, kernel-sink failure and unsupported
host each cause an exit with the operating-system error code
`EXIT_OSERR`; lock failure instead exits with the usage-error code
`EXIT_USAGE`.  (The entropy-source and kernel-sink initializers are
modelled from the spec, their bodies being outside src.) -/
theorem c3_fatal_exit_codes (env : MainEnv) :
    (env.kernelSupported = false →
      ∃ t, mainStartup env = some t ∧ exitCodeOf t = some ExitCode.oserr) ∧
    (env.kernelSupported = true → env.entropySourceOk = false →
      ∃ t, mainStartup env = some t ∧ exitCodeOf t = some ExitCode.oserr) ∧
    (env.kernelSupported = true → env.entropySourceOk = true →
      env.kernelSinkOk = false →
      ∃ t, mainStartup env = some t ∧ exitCodeOf t = some ExitCode.oserr) ∧
    (env.kernelSupported = true → env.entropySourceOk = true →
      env.kernelSinkOk = true → env.daemonMode = true →
      env.lockEnv.openSucceeds = false →
      ∃ t, mainStartup env = some t ∧ exitCodeOf t = some ExitCode.usage) := by
  refine ⟨?_, ?_, ?_, ?_⟩
  · intro hk
    refine ⟨Event.logUnsupportedKernel :: die false ExitCode.oserr, ?_, rfl⟩
    unfold mainStartup
    rw [if_pos hk]
  · intro hk he
    refine ⟨[Event.closeFds, Event.initStats, Event.initSighandlers,
             Event.logDeviceFailure] ++ die false ExitCode.oserr, ?_, rfl⟩
    unfold mainStartup
    rw [if_neg (by simp [hk]), if_pos he]
  · intro hk he hs
    refine ⟨[Event.closeFds, Event.initStats, Event.initSighandlers,
             Event.initEntropySource, Event.logSinkFailure] ++
            die false ExitCode.oserr, ?_, rfl⟩
    unfold mainStartup
    rw [if_neg (by simp [hk]), if_neg (by simp [he]), if_pos hs]
  · intro hk he hs hd ho
    refine ⟨initTrace ++
            (Event.logCantOpenPidfile :: die false ExitCode.usage), ?_, rfl⟩
    unfold mainStartup
    rw [if_neg (by simp [hk]), if_neg (by simp [he]), if_neg (by simp [hs]),
        if_pos hd]
    have hg : get_lock env.lockEnv false false =
        some (Event.logCantOpenPidfile :: die false ExitCode.usage, false) := by
      unfold get_lock
      rw [if_neg (by simp), if_pos ho]
    rw [hg]
    rfl

/-- Startup environment on an unsupported kernel. -/
def envUnsupported : MainEnv :=
  { envLockBlocked with kernelSupported := false }

/-- Witness for C3 (amended) on an unsupported host. -/
theorem c3_fatal_exit_codes_witness :
    ∃ t, mainStartup envUnsupported = some t ∧
      exitCodeOf t = some ExitCode.oserr :=
  (c3_fatal_exit_codes envUnsupported).1 rfl

/-- C7: whenever `main`'s startup reaches worker-thread creation, the
buffer pool is initialized first and exactly one thread per pipeline
stage (source, FIPS, sink) is created — the ordered marker subsequence
of the trace is precisely `initBuffers` followed by the three
creations; if any of the three `pthread_create` calls fails (returns
nonzero), the process exits with the operating-system error code, and
if all succeed the startup does not exit. -/
theorem c7_three_worker_threads (env : MainEnv) (t : Trace)
    (h : mainStartup env = some t)
    (hc : Event.createThread ThreadId.source ∈ t) :
    startupMarkers t =
      [Event.initBuffers, Event.createThread ThreadId.source,
       Event.createThread ThreadId.fips, Event.createThread ThreadId.sink] ∧
    ((env.t1err ≠ 0 ∨ env.t2err ≠ 0 ∨ env.t3err ≠ 0) →
      exitCodeOf t = some ExitCode.oserr) ∧
    (env.t1err = 0 ∧ env.t2err = 0 ∧ env.t3err = 0 →
      exitCodeOf t = none) := by
  have hfin : ∀ pre : Trace, startupMarkers pre = [] → exitCodeOf pre = none →
      ∀ am : Bool,
      startupMarkers (pre ++ postForkTrace am env.t1err env.t2err env.t3err) =
        [Event.initBuffers, Event.createThread ThreadId.source,
         Event.createThread ThreadId.fips, Event.createThread ThreadId.sink] ∧
      ((env.t1err ≠ 0 ∨ env.t2err ≠ 0 ∨ env.t3err ≠ 0) →
        exitCodeOf (pre ++ postForkTrace am env.t1err env.t2err env.t3err) =
          some ExitCode.oserr) ∧
      (env.t1err = 0 ∧ env.t2err = 0 ∧ env.t3err = 0 →
        exitCodeOf (pre ++ postForkTrace am env.t1err env.t2err env.t3err) =
          none) := by
    intro pre hm hx am
    refine ⟨?_, ?_, ?_⟩
    · rw [startupMarkers_append, hm, startupMarkers_postFork]
      rfl
    · intro hne
      rw [exitCodeOf_append_of_none _ _ hx]
      refine exitCodeOf_postFork_fail am _ _ _ ?_
      rw [Ne, lor_zero_iff, lor_zero_iff]
      tauto
    · rintro ⟨h1, h2, h3⟩
      rw [exitCodeOf_append_of_none _ _ hx]
      exact exitCodeOf_postFork_ok am _ _ _ (by rw [h1, h2, h3]; rfl)
  unfold mainStartup at h
  by_cases hk : env.kernelSupported = false
  · rw [if_pos hk] at h
    simp only [Option.some.injEq] at h
    subst h
    exact absurd hc (by decide)
  · rw [if_neg hk] at h
    by_cases he : env.entropySourceOk = false
    · rw [if_pos he] at h
      simp only [Option.some.injEq] at h
      subst h
      exact absurd hc (by decide)
    · rw [if_neg he] at h
      by_cases hs : env.kernelSinkOk = false
      · rw [if_pos hs] at h
        simp only [Option.some.injEq] at h
        subst h
        exact absurd hc (by decide)
      · rw [if_neg hs] at h
        by_cases hd : env.daemonMode = true
        · rw [if_pos hd] at h
          cases hg : get_lock env.lockEnv false false with
          | none => rw [hg] at h; simp at h
          | some p =>
            obtain ⟨lt, fp⟩ := p
            rw [hg] at h
            simp only [Option.some_bind] at h
            have hltm : startupMarkers lt = [] :=
              get_lock_markers env.lockEnv false false lt fp hg
            by_cases hx1 : hasExitB lt = true
            · rw [if_pos hx1] at h
              simp only [Option.some.injEq] at h
              subst h
              rcases List.mem_append.1 hc with hc1 | hc2
              · exact absurd hc1 (by decide)
              · have hmem := mem_startupMarkers_of_create lt _ hc2
                rw [hltm] at hmem
                simp at hmem
            · rw [if_neg hx1] at h
              have hlx : exitCodeOf lt = none :=
                exitCodeOf_none_of_hasExitB lt (by simpa using hx1)
              by_cases hdz : env.daemonizeOk = false
              · rw [if_pos hdz] at h
                simp only [Option.some.injEq] at h
                subst h
                rcases List.mem_append.1 hc with hc1 | hc2
                · rcases List.mem_append.1 hc1 with hc3 | hc4
                  · exact absurd hc3 (by decide)
                  · have hmem := mem_startupMarkers_of_create lt _ hc4
                    rw [hltm] at hmem
                    simp at hmem
                · exact absurd hc2 (by decide)
              · rw [if_neg hdz] at h
                cases hg2 : get_lock env.lockEnv2 true fp with
                | none => rw [hg2] at h; simp at h
                | some p2 =>
                  obtain ⟨lt2, fp2⟩ := p2
                  rw [hg2] at h
                  simp only [Option.some_bind] at h
                  have hltm2 : startupMarkers lt2 = [] :=
                    get_lock_markers env.lockEnv2 true fp lt2 fp2 hg2
                  by_cases hx2 : hasExitB lt2 = true
                  · rw [if_pos hx2] at h
                    simp only [Option.some.injEq] at h
                    subst h
                    rcases List.mem_append.1 hc with hc1 | hc2
                    · rcases List.mem_append.1 hc1 with hc3 | hc4
                      · exact absurd hc3 (by decide)
                      · have hmem := mem_startupMarkers_of_create lt _ hc4
                        rw [hltm] at hmem
                        simp at hmem
                    · have hmem := mem_startupMarkers_of_create lt2 _ hc2
                      rw [hltm2] at hmem
                      simp at hmem
                  · rw [if_neg hx2] at h
                    simp only [Option.some.injEq] at h
                    subst h
                    have hlx2 : exitCodeOf lt2 = none :=
                      exitCodeOf_none_of_hasExitB lt2 (by simpa using hx2)
                    have hpre : startupMarkers (initTrace ++ lt ++ lt2) = [] := by
                      rw [startupMarkers_append, startupMarkers_append, hltm,
                          hltm2]
                      rfl
                    have hprx : exitCodeOf (initTrace ++ lt ++ lt2) = none := by
                      have h1 : exitCodeOf (initTrace ++ lt) = none := by
                        rw [exitCodeOf_append_of_none initTrace lt rfl]
                        exact hlx
                      rw [exitCodeOf_append_of_none _ _ h1]
                      exact hlx2
                    exact hfin (initTrace ++ lt ++ lt2) hpre hprx true
        · rw [if_neg hd] at h
          simp only [Option.some.injEq] at h
          subst h
          exact hfin initTrace rfl rfl false

/-- Startup environment with everything healthy, not daemonized, and
all three thread creations succeeding. -/
def envNoDaemon : MainEnv :=
  { envLockBlocked with daemonMode := false }

/-- Witness for C7 on a healthy non-daemonized startup. -/
theorem c7_three_worker_threads_witness :
    startupMarkers (initTrace ++ postForkTrace false 0 0 0) =
      [Event.initBuffers, Event.createThread ThreadId.source,
       Event.createThread ThreadId.fips, Event.createThread ThreadId.sink] ∧
    (((0 : Nat) ≠ 0 ∨ (0 : Nat) ≠ 0 ∨ (0 : Nat) ≠ 0) →
      exitCodeOf (initTrace ++ postForkTrace false 0 0 0) =
        some ExitCode.oserr) ∧
    ((0 : Nat) = 0 ∧ (0 : Nat) = 0 ∧ (0 : Nat) = 0 →
      exitCodeOf (initTrace ++ postForkTrace false 0 0 0) = none) :=
  c7_three_worker_threads envNoDaemon
    (initTrace ++ postForkTrace false 0 0 0) rfl (by decide)

/-- Statistics record with both byte counters at `2 ^ 28`, the point
where the logged 32-bit bit counts wrap. -/
def statsAtWrap : RngStats :=
  { init_rng_stats 3 with bytes_received := 2 ^ 28, bytes_sent := 2 ^ 28 }

/-- Witness for C10 at a concrete statistics record with
`bytes_received = 2 ^ 28`. -/
theorem c10_logged_bits_wrap_witness :
    (2 : Int) ^ 28 ≤ statsAtWrap.bytes_received ∧
    wrap32 (statsAtWrap.bytes_received * 8) ≠ statsAtWrap.bytes_received * 8 :=
  ⟨by decide, (c10_logged_bits_wrap statsAtWrap).2.2.2.2.1 (by decide)⟩

end Rngd
